import Mathlib

/-!
Shallow embedding of the `configdecorator` repository: a layered
configuration-reload chain (Decorator pattern).

`main.go` is the default-filling build: a base `Config` and two decorators,
`DatabaseConfig` and `MessageOfTheDay`, each implementing the `Configurer`
interface with a `Reload` method that first reloads its delegate and then
repopulates its own fields from environment variables, substituting fixed
defaults for unset or empty variables.

`part_000` is the static accessor build: a base `Config` (address, port) and a
`DatabaseConfig` decorator exposing `GetHost`/`GetPort` by delegation plus its
own `GetDBAddress`/`GetDBPort`.

The process environment is modelled as a partial map from variable names to
values; `os.Getenv` returns the empty string for an unset variable.
-/

/-- The process environment: `none` means the variable is unset. -/
def Env : Type := String → Option String

/-- `os.Getenv`: returns the variable's value, or `""` when it is unset. -/
def getenv (env : Env) (k : String) : String :=
  (env k).getD ""

/-- The one error kind of the strict-mode builds, naming the missing variable. -/
inductive ConfigError where
  | MissingRequiredValue (variableName : String)
  deriving DecidableEq

/-- Observable events of a `Reload` cascade: `reloading l` models the
`fmt.Println("Reloading " + l)` at the entry of layer `l`'s `Reload`
(call order, outer to inner); `updated l` marks the point where layer `l`
assigns its own fields (completion order, inner to outer). -/
inductive Event where
  | reloading (layer : String)
  | updated (layer : String)
  deriving DecidableEq

/-- A configuration chain: each node is one layer, holding its own fields and
(for decorators) the delegate it wraps, mirroring the `Configurer` interface
embedding in the Go source. `Config`, `DatabaseConfig` and `MessageOfTheDay`
are the default-filling layers of `main.go`; `StrictConfig` and
`StrictDatabaseConfig` are the strict-mode layer variants described by the
spec (their build is not under `src/`). -/
inductive Chain where
  | Config (Address Port : String)
  | StrictConfig (Address Port : String)
  | DatabaseConfig (Configurer : Chain) (DBAddress DBPort : String)
  | StrictDatabaseConfig (Configurer : Chain) (DBAddress DBPort : String)
  | MessageOfTheDay (Configurer : Chain) (MOTD : String)
  deriving DecidableEq

/-- Modelled from the spec: the strict-mode builds are not under `src/` (only
the default-filling build `main.go` and the static build `part_000` are).
Per the spec's strict mode, a required field read fails with
`MissingRequiredValue` naming the exact variable when it is unset or empty,
and succeeds with the value otherwise. -/
def strictReadField (env : Env) (k : String) : Except ConfigError String :=
  let v := getenv env k
  if v = "" then .error (.MissingRequiredValue k) else .ok v

/-- `Reload` of a chain: returns the post-call chain state, the returned Go
error (`none` is Go's `nil`), and the event trace. Each constructor's case is
the embedding of the corresponding Go method: a decorator first prints, then
reloads its delegate, propagating a delegate failure without touching its own
fields, and otherwise repopulates its own fields from the environment
(default-filling layers substitute the documented defaults for missing values;
strict layers fail via `strictReadField`, first-checked-first-reported,
leaving their own fields at pre-call values). -/
def Chain.Reload (env : Env) : Chain → Chain × Option ConfigError × List Event
  | .Config _ _ =>
      let address := getenv env "ADDRESS"
      let port := getenv env "PORT"
      (.Config (if address = "" then "http://localhost" else address)
               (if port = "" then "8081" else port),
       none, [.reloading "base config", .updated "base config"])
  | .StrictConfig a p =>
      match strictReadField env "ADDRESS" with
      | .error e => (.StrictConfig a p, some e, [.reloading "base config"])
      | .ok address =>
        match strictReadField env "PORT" with
        | .error e => (.StrictConfig a p, some e, [.reloading "base config"])
        | .ok port =>
            (.StrictConfig address port, none,
             [.reloading "base config", .updated "base config"])
  | .DatabaseConfig inner dbA dbP =>
      match Reload env inner with
      | (inner', some e, itr) =>
          (.DatabaseConfig inner' dbA dbP, some e,
           .reloading "database config" :: itr)
      | (inner', none, itr) =>
          let dbAddress := getenv env "DB_ADDRESS"
          let dbPort := getenv env "DB_PORT"
          (.DatabaseConfig inner'
             (if dbAddress = "" then "http://localhost" else dbAddress)
             (if dbPort = "" then "37017" else dbPort),
           none,
           .reloading "database config" :: itr ++ [.updated "database config"])
  | .StrictDatabaseConfig inner dbA dbP =>
      match Reload env inner with
      | (inner', some e, itr) =>
          (.StrictDatabaseConfig inner' dbA dbP, some e,
           .reloading "database config" :: itr)
      | (inner', none, itr) =>
          match strictReadField env "DB_ADDRESS" with
          | .error e =>
              (.StrictDatabaseConfig inner' dbA dbP, some e,
               .reloading "database config" :: itr)
          | .ok dbAddress =>
            match strictReadField env "DB_PORT" with
            | .error e =>
                (.StrictDatabaseConfig inner' dbA dbP, some e,
                 .reloading "database config" :: itr)
            | .ok dbPort =>
                (.StrictDatabaseConfig inner' dbAddress dbPort, none,
                 .reloading "database config" :: itr ++
                   [.updated "database config"])
  | .MessageOfTheDay inner m =>
      match Reload env inner with
      | (inner', some e, itr) =>
          (.MessageOfTheDay inner' m, some e,
           .reloading "message of the day" :: itr)
      | (inner', none, itr) =>
          let motd := getenv env "MOTD"
          (.MessageOfTheDay inner'
             (if motd = "" then "Have a Nice Day!" else motd),
           none,
           .reloading "message of the day" :: itr ++
             [.updated "message of the day"])

/-- Read the base layer's `Address` through the chain, delegating inward. -/
def Chain.addressOf : Chain → Option String
  | .Config a _ => some a
  | .StrictConfig a _ => some a
  | .DatabaseConfig inner _ _ => inner.addressOf
  | .StrictDatabaseConfig inner _ _ => inner.addressOf
  | .MessageOfTheDay inner _ => inner.addressOf

/-- Read the base layer's `Port` through the chain, delegating inward. -/
def Chain.portOf : Chain → Option String
  | .Config _ p => some p
  | .StrictConfig _ p => some p
  | .DatabaseConfig inner _ _ => inner.portOf
  | .StrictDatabaseConfig inner _ _ => inner.portOf
  | .MessageOfTheDay inner _ => inner.portOf

/-- Read the outermost database layer's `DBAddress`, delegating inward. -/
def Chain.dbAddressOf : Chain → Option String
  | .Config _ _ => none
  | .StrictConfig _ _ => none
  | .DatabaseConfig _ a _ => some a
  | .StrictDatabaseConfig _ a _ => some a
  | .MessageOfTheDay inner _ => inner.dbAddressOf

/-- Read the outermost database layer's `DBPort`, delegating inward. -/
def Chain.dbPortOf : Chain → Option String
  | .Config _ _ => none
  | .StrictConfig _ _ => none
  | .DatabaseConfig _ _ p => some p
  | .StrictDatabaseConfig _ _ p => some p
  | .MessageOfTheDay inner _ => inner.dbPortOf

/-- Read the outermost message-of-the-day layer's `MOTD`, delegating inward. -/
def Chain.motdOf : Chain → Option String
  | .Config _ _ => none
  | .StrictConfig _ _ => none
  | .DatabaseConfig inner _ _ => inner.motdOf
  | .StrictDatabaseConfig inner _ _ => inner.motdOf
  | .MessageOfTheDay _ m => some m

/-- A chain belongs to the default-filling build: no strict-mode layer. -/
def Chain.defaultMode : Chain → Bool
  | .Config _ _ => true
  | .StrictConfig _ _ => false
  | .DatabaseConfig inner _ _ => inner.defaultMode
  | .StrictDatabaseConfig _ _ _ => false
  | .MessageOfTheDay inner _ => inner.defaultMode

/-- The layer names of a chain, outermost first, as printed by each layer's
`Reload`. -/
def Chain.layerNames : Chain → List String
  | .Config _ _ => ["base config"]
  | .StrictConfig _ _ => ["base config"]
  | .DatabaseConfig inner _ _ => "database config" :: inner.layerNames
  | .StrictDatabaseConfig inner _ _ => "database config" :: inner.layerNames
  | .MessageOfTheDay inner _ => "message of the day" :: inner.layerNames

/-- The kind of one layer, used to compare chain structure without fields. -/
inductive LayerKind where
  | base
  | strictBase
  | db
  | strictDb
  | motd
  deriving DecidableEq

/-- The structure of a chain: its layer kinds, outermost first. -/
def Chain.shape : Chain → List LayerKind
  | .Config _ _ => [.base]
  | .StrictConfig _ _ => [.strictBase]
  | .DatabaseConfig inner _ _ => .db :: inner.shape
  | .StrictDatabaseConfig inner _ _ => .strictDb :: inner.shape
  | .MessageOfTheDay inner _ => .motd :: inner.shape

/-- Every field of every layer of the chain is a non-empty string. -/
def Chain.allFieldsNonempty : Chain → Bool
  | .Config a p => (a != "") && (p != "")
  | .StrictConfig a p => (a != "") && (p != "")
  | .DatabaseConfig inner a p => inner.allFieldsNonempty && (a != "") && (p != "")
  | .StrictDatabaseConfig inner a p => inner.allFieldsNonempty && (a != "") && (p != "")
  | .MessageOfTheDay inner m => inner.allFieldsNonempty && (m != "")

/-- The spec's per-field default-filling policy, stated from the spec's words
for comparison with the code: if variable `k` is unset or empty the field
reads `dflt`; if it is set to a non-empty `s` the field reads exactly `s`. -/
def specFieldPolicy (env : Env) (k dflt : String) (v : Option String) : Prop :=
  ((env k = none ∨ env k = some "") → v = some dflt) ∧
    ∀ s, s ≠ "" → env k = some s → v = some s

/-- The environment with no variable set. -/
def envUnsetAll : Env := fun _ => none

/-- The environment of the spec's strict scenario: `ADDRESS` set to
`"http://svc"`, everything else (in particular `PORT`) unset. -/
def envSvc : Env := fun k => if k = "ADDRESS" then some "http://svc" else none

/-- An environment with every relevant variable set to a non-empty value. -/
def envFull : Env := fun k =>
  if k = "ADDRESS" then some "http://a" else
  if k = "PORT" then some "1" else
  if k = "DB_ADDRESS" then some "http://d" else
  if k = "DB_PORT" then some "2" else
  if k = "MOTD" then some "hi" else none

namespace Static

/-- The `Configurer` towers of the static build `part_000`: the base `Config`
(private `address`, `port`) or a `DatabaseConfig` decorator wrapping any
`Configurer` and adding private `dbAddress`, `dbPort`. Go's `int` is modelled
as `Int`. -/
inductive Configurer where
  | Config (address : String) (port : Int)
  | DatabaseConfig (config : Configurer) (dbAddress : String) (dbPort : Int)
  deriving DecidableEq

/-- `GetHost`, in state-passing form: returns the host address together with
the post-call state of the receiver tower (the base returns its `address`
field; the decorator forwards to its delegate). -/
def Configurer.GetHost : Configurer → String × Configurer
  | .Config a p => (a, .Config a p)
  | .DatabaseConfig c dbA dbP =>
      match c.GetHost with
      | (v, c') => (v, .DatabaseConfig c' dbA dbP)

/-- `GetPort`, in state-passing form: returns the port number together with
the post-call state of the receiver tower. -/
def Configurer.GetPort : Configurer → Int × Configurer
  | .Config a p => (p, .Config a p)
  | .DatabaseConfig c dbA dbP =>
      match c.GetPort with
      | (v, c') => (v, .DatabaseConfig c' dbA dbP)

/-- `GetDBAddress`, in state-passing form: defined only on `DatabaseConfig`
receivers (`none` on the base, which has no such method); returns the
receiver's own `dbAddress` field. -/
def Configurer.GetDBAddress : Configurer → Option String × Configurer
  | .Config a p => (none, .Config a p)
  | .DatabaseConfig c dbA dbP => (some dbA, .DatabaseConfig c dbA dbP)

/-- `GetDBPort`, in state-passing form: defined only on `DatabaseConfig`
receivers (`none` on the base, which has no such method); returns the
receiver's own `dbPort` field. -/
def Configurer.GetDBPort : Configurer → Option Int × Configurer
  | .Config a p => (none, .Config a p)
  | .DatabaseConfig c dbA dbP => (some dbP, .DatabaseConfig c dbA dbP)

/-- The innermost (base) layer of a tower. -/
def Configurer.baseOf : Configurer → Configurer
  | .Config a p => .Config a p
  | .DatabaseConfig c _ _ => c.baseOf

end Static

/-- An environment with every variable set to the empty string. -/
def envEmptyStrings : Env := fun _ => some ""

theorem strictReadField_missing (env : Env) (k : String)
    (h : env k = none ∨ env k = some "") :
    strictReadField env k = .error (.MissingRequiredValue k) := by
  rcases h with h | h <;> simp [strictReadField, getenv, h]

theorem strictReadField_set (env : Env) (k v : String) (hv : v ≠ "")
    (h : env k = some v) : strictReadField env k = .ok v := by
  simp [strictReadField, getenv, h, hv]

theorem Chain.reload_error_none (env : Env) :
    ∀ c : Chain, c.defaultMode = true → (Chain.Reload env c).2.1 = none := by
  intro c
  induction c with
  | Config a p => intro _; rfl
  | StrictConfig a p => intro h; simp [Chain.defaultMode] at h
  | DatabaseConfig inner dbA dbP ih =>
      intro h
      have h2 := ih h
      rcases hR : Chain.Reload env inner with ⟨inner', ierr, itr⟩
      rw [hR] at h2
      cases ierr with
      | some e => simp at h2
      | none => simp [Chain.Reload, hR]
  | StrictDatabaseConfig inner dbA dbP ih =>
      intro h
      simp [Chain.defaultMode] at h
  | MessageOfTheDay inner m ih =>
      intro h
      have h2 := ih h
      rcases hR : Chain.Reload env inner with ⟨inner', ierr, itr⟩
      rw [hR] at h2
      cases ierr with
      | some e => simp at h2
      | none => simp [Chain.Reload, hR]

theorem specFieldPolicy_if (env : Env) (k dflt : String) :
    specFieldPolicy env k dflt
      (some (if getenv env k = "" then dflt else getenv env k)) := by
  constructor
  · intro h
    have hg : getenv env k = "" := by rcases h with h | h <;> simp [getenv, h]
    simp [hg]
  · intro s hs he
    have hg : getenv env k = s := by simp [getenv, he]
    rw [hg]
    simp [hs]

/-- C1: in the default-filling build, after a successful reload of the
three-layer chain, each field follows the spec's policy for its variable:
unset or empty yields the documented default, a non-empty value is taken
verbatim. -/
theorem reload_default_filling_fields (env : Env) (a p dbA dbP m : String) :
    specFieldPolicy env "ADDRESS" "http://localhost"
      ((Chain.Reload env
        (.MessageOfTheDay (.DatabaseConfig (.Config a p) dbA dbP) m)).1).addressOf ∧
    specFieldPolicy env "PORT" "8081"
      ((Chain.Reload env
        (.MessageOfTheDay (.DatabaseConfig (.Config a p) dbA dbP) m)).1).portOf ∧
    specFieldPolicy env "DB_ADDRESS" "http://localhost"
      ((Chain.Reload env
        (.MessageOfTheDay (.DatabaseConfig (.Config a p) dbA dbP) m)).1).dbAddressOf ∧
    specFieldPolicy env "DB_PORT" "37017"
      ((Chain.Reload env
        (.MessageOfTheDay (.DatabaseConfig (.Config a p) dbA dbP) m)).1).dbPortOf ∧
    specFieldPolicy env "MOTD" "Have a Nice Day!"
      ((Chain.Reload env
        (.MessageOfTheDay (.DatabaseConfig (.Config a p) dbA dbP) m)).1).motdOf :=
  ⟨specFieldPolicy_if env "ADDRESS" "http://localhost",
   specFieldPolicy_if env "PORT" "8081",
   specFieldPolicy_if env "DB_ADDRESS" "http://localhost",
   specFieldPolicy_if env "DB_PORT" "37017",
   specFieldPolicy_if env "MOTD" "Have a Nice Day!"⟩

/-- C5: default-filling reload is total: it returns no error on any
default-filling chain, and each decorator succeeds whenever its delegate's
reload succeeds. -/
theorem reload_total (env : Env) (c inner : Chain) (dbA dbP m : String)
    (hc : c.defaultMode = true)
    (hi : (Chain.Reload env inner).2.1 = none) :
    (Chain.Reload env c).2.1 = none ∧
    (Chain.Reload env (.DatabaseConfig inner dbA dbP)).2.1 = none ∧
    (Chain.Reload env (.MessageOfTheDay inner m)).2.1 = none := by
  refine ⟨Chain.reload_error_none env c hc, ?_, ?_⟩ <;>
  · rcases hR : Chain.Reload env inner with ⟨inner', ierr, itr⟩
    rw [hR] at hi
    cases ierr with
    | some e => simp at hi
    | none => simp [Chain.Reload, hR]

/-- Witness for C5 at a concrete chain and environment. -/
theorem reload_total_witness :
    (Chain.Reload envUnsetAll (.Config "a" "b")).2.1 = none ∧
    (Chain.Reload envUnsetAll (.DatabaseConfig (.Config "c" "d") "x" "y")).2.1 = none ∧
    (Chain.Reload envUnsetAll (.MessageOfTheDay (.Config "c" "d") "z")).2.1 = none :=
  reload_total envUnsetAll (.Config "a" "b") (.Config "c" "d") "x" "y" "z"
    (by decide) (by decide)

/-- C4: a decorator whose delegate's reload fails returns exactly the
delegate's error, unchanged, and leaves its own fields untouched (the
delegate's post-call state is retained, nothing else is modified). -/
theorem reload_error_propagation (env : Env) (inner inner' : Chain)
    (e : ConfigError) (itr : List Event) (dbA dbP m : String)
    (h : Chain.Reload env inner = (inner', some e, itr)) :
    Chain.Reload env (.DatabaseConfig inner dbA dbP) =
      (.DatabaseConfig inner' dbA dbP, some e,
       .reloading "database config" :: itr) ∧
    Chain.Reload env (.StrictDatabaseConfig inner dbA dbP) =
      (.StrictDatabaseConfig inner' dbA dbP, some e,
       .reloading "database config" :: itr) ∧
    Chain.Reload env (.MessageOfTheDay inner m) =
      (.MessageOfTheDay inner' m, some e,
       .reloading "message of the day" :: itr) := by
  refine ⟨?_, ?_, ?_⟩ <;> simp [Chain.Reload, h]

/-- Witness for C4: a strict base missing `ADDRESS` makes each decorator
propagate `MissingRequiredValue "ADDRESS"` untouched. -/
theorem reload_error_propagation_witness :
    Chain.Reload envUnsetAll (.DatabaseConfig (.StrictConfig "a" "p") "da" "dp") =
      (.DatabaseConfig (.StrictConfig "a" "p") "da" "dp",
       some (.MissingRequiredValue "ADDRESS"),
       [.reloading "database config", .reloading "base config"]) ∧
    Chain.Reload envUnsetAll (.StrictDatabaseConfig (.StrictConfig "a" "p") "da" "dp") =
      (.StrictDatabaseConfig (.StrictConfig "a" "p") "da" "dp",
       some (.MissingRequiredValue "ADDRESS"),
       [.reloading "database config", .reloading "base config"]) ∧
    Chain.Reload envUnsetAll (.MessageOfTheDay (.StrictConfig "a" "p") "mo") =
      (.MessageOfTheDay (.StrictConfig "a" "p") "mo",
       some (.MissingRequiredValue "ADDRESS"),
       [.reloading "message of the day", .reloading "base config"]) :=
  reload_error_propagation envUnsetAll (.StrictConfig "a" "p") (.StrictConfig "a" "p")
    (.MissingRequiredValue "ADDRESS") [.reloading "base config"] "da" "dp" "mo"
    (by decide)

/-- C2: on every default-filling chain, one reload of the outermost layer
enters every layer exactly once (outermost first, as printed) and the layers
repopulate their fields in inner-to-outer completion order, each only after
every layer beneath it has updated. -/
theorem reload_trace_order (env : Env) :
    ∀ c : Chain, c.defaultMode = true →
      (Chain.Reload env c).2.2 =
        c.layerNames.map Event.reloading ++
          c.layerNames.reverse.map Event.updated := by
  intro c
  induction c with
  | Config a p => intro _; simp [Chain.Reload, Chain.layerNames]
  | StrictConfig a p => intro h; simp [Chain.defaultMode] at h
  | DatabaseConfig inner dbA dbP ih =>
      intro h
      have he := Chain.reload_error_none env inner h
      have ht := ih h
      rcases hR : Chain.Reload env inner with ⟨inner', ierr, itr⟩
      rw [hR] at he ht
      cases ierr with
      | some e => simp at he
      | none =>
          simp only [Chain.Reload, hR, Chain.layerNames]
          simp only at ht
          simp [ht, List.map_append, List.append_assoc]
  | StrictDatabaseConfig inner dbA dbP ih =>
      intro h
      simp [Chain.defaultMode] at h
  | MessageOfTheDay inner m ih =>
      intro h
      have he := Chain.reload_error_none env inner h
      have ht := ih h
      rcases hR : Chain.Reload env inner with ⟨inner', ierr, itr⟩
      rw [hR] at he ht
      cases ierr with
      | some e => simp at he
      | none =>
          simp only [Chain.Reload, hR, Chain.layerNames]
          simp only at ht
          simp [ht, List.map_append, List.append_assoc]

/-- Witness for C2 on the three-layer chain with an empty environment. -/
theorem reload_trace_order_witness :
    (Chain.Reload envUnsetAll
        (.MessageOfTheDay (.DatabaseConfig (.Config "a" "b") "c" "d") "e")).2.2 =
      (Chain.MessageOfTheDay (.DatabaseConfig (.Config "a" "b") "c" "d")
          "e").layerNames.map Event.reloading ++
        (Chain.MessageOfTheDay (.DatabaseConfig (.Config "a" "b") "c" "d")
          "e").layerNames.reverse.map Event.updated :=
  reload_trace_order envUnsetAll
    (.MessageOfTheDay (.DatabaseConfig (.Config "a" "b") "c" "d") "e") (by decide)

/-- C6: reload is idempotent: reloading the chain produced by a reload under
the same environment reproduces exactly the same state, error and trace. -/
theorem reload_idempotent (env : Env) :
    ∀ c : Chain, Chain.Reload env (Chain.Reload env c).1 = Chain.Reload env c := by
  intro c
  induction c with
  | Config a p => simp [Chain.Reload]
  | StrictConfig a p =>
      cases hA : strictReadField env "ADDRESS" with
      | error e => simp [Chain.Reload, hA]
      | ok address =>
        cases hP : strictReadField env "PORT" with
        | error e => simp [Chain.Reload, hA, hP]
        | ok port => simp [Chain.Reload, hA, hP]
  | DatabaseConfig inner dbA dbP ih =>
      rcases hR : Chain.Reload env inner with ⟨inner', ierr, itr⟩
      have ih2 : Chain.Reload env inner' = (inner', ierr, itr) := by
        rw [hR] at ih; simpa using ih
      cases ierr with
      | some e => simp [Chain.Reload, hR, ih2]
      | none => simp [Chain.Reload, hR, ih2]
  | StrictDatabaseConfig inner dbA dbP ih =>
      rcases hR : Chain.Reload env inner with ⟨inner', ierr, itr⟩
      have ih2 : Chain.Reload env inner' = (inner', ierr, itr) := by
        rw [hR] at ih; simpa using ih
      cases ierr with
      | some e => simp [Chain.Reload, hR, ih2]
      | none =>
        cases hA : strictReadField env "DB_ADDRESS" with
        | error e => simp [Chain.Reload, hR, ih2, hA]
        | ok dbAddress =>
          cases hP : strictReadField env "DB_PORT" with
          | error e => simp [Chain.Reload, hR, ih2, hA, hP]
          | ok dbPort => simp [Chain.Reload, hR, ih2, hA, hP]
  | MessageOfTheDay inner m ih =>
      rcases hR : Chain.Reload env inner with ⟨inner', ierr, itr⟩
      have ih2 : Chain.Reload env inner' = (inner', ierr, itr) := by
        rw [hR] at ih; simpa using ih
      cases ierr with
      | some e => simp [Chain.Reload, hR, ih2]
      | none => simp [Chain.Reload, hR, ih2]

theorem default_fill_ne_empty (x d : String) (hd : d ≠ "") :
    ((if x = "" then d else x) != "") = true := by
  by_cases h : x = "" <;> simp [h, hd]

/-- C8: after a reload of any default-filling chain, every field of every
layer is a non-empty string, whatever the environment (in particular with
every variable set to the empty string). -/
theorem reload_fields_nonempty (env : Env) :
    ∀ c : Chain, c.defaultMode = true →
      ((Chain.Reload env c).1).allFieldsNonempty = true := by
  intro c
  induction c with
  | Config a p =>
      intro _
      simp only [Chain.Reload, Chain.allFieldsNonempty, Bool.and_eq_true]
      exact ⟨default_fill_ne_empty _ _ (by decide),
             default_fill_ne_empty _ _ (by decide)⟩
  | StrictConfig a p => intro h; simp [Chain.defaultMode] at h
  | DatabaseConfig inner dbA dbP ih =>
      intro h
      have he := Chain.reload_error_none env inner h
      have hi := ih h
      rcases hR : Chain.Reload env inner with ⟨inner', ierr, itr⟩
      rw [hR] at he hi
      cases ierr with
      | some e => simp at he
      | none =>
          simp only at hi
          simp only [Chain.Reload, hR, Chain.allFieldsNonempty, Bool.and_eq_true]
          exact ⟨⟨hi, default_fill_ne_empty _ _ (by decide)⟩,
                 default_fill_ne_empty _ _ (by decide)⟩
  | StrictDatabaseConfig inner dbA dbP ih =>
      intro h
      simp [Chain.defaultMode] at h
  | MessageOfTheDay inner m ih =>
      intro h
      have he := Chain.reload_error_none env inner h
      have hi := ih h
      rcases hR : Chain.Reload env inner with ⟨inner', ierr, itr⟩
      rw [hR] at he hi
      cases ierr with
      | some e => simp at he
      | none =>
          simp only at hi
          simp only [Chain.Reload, hR, Chain.allFieldsNonempty, Bool.and_eq_true]
          exact ⟨hi, default_fill_ne_empty _ _ (by decide)⟩

/-- Witness for C8 with every variable set to the empty string and empty
construction-time fields. -/
theorem reload_fields_nonempty_witness :
    ((Chain.Reload envEmptyStrings
        (.MessageOfTheDay (.DatabaseConfig (.Config "" "") "" "") "")).1).allFieldsNonempty
      = true :=
  reload_fields_nonempty envEmptyStrings
    (.MessageOfTheDay (.DatabaseConfig (.Config "" "") "" "") "") (by decide)

/-- C9: on default-filling chains, the outcome of reload depends only on the
environment and the chain's structure: two chains of identical shape but
arbitrary differing field values reload to the identical result. -/
theorem reload_env_determined (env : Env) :
    ∀ c c' : Chain, c.defaultMode = true → c'.defaultMode = true →
      c.shape = c'.shape → Chain.Reload env c = Chain.Reload env c' := by
  intro c
  induction c with
  | Config a p =>
      intro c' h h' hs
      cases c' with
      | Config a' p' => simp [Chain.Reload]
      | StrictConfig a' p' => simp [Chain.defaultMode] at h'
      | DatabaseConfig inner' dbA' dbP' => simp [Chain.shape] at hs
      | StrictDatabaseConfig inner' dbA' dbP' => simp [Chain.defaultMode] at h'
      | MessageOfTheDay inner' m' => simp [Chain.shape] at hs
  | StrictConfig a p =>
      intro c' h h' hs
      simp [Chain.defaultMode] at h
  | DatabaseConfig inner dbA dbP ih =>
      intro c' h h' hs
      cases c' with
      | Config a' p' => simp [Chain.shape] at hs
      | StrictConfig a' p' => simp [Chain.defaultMode] at h'
      | DatabaseConfig inner' dbA' dbP' =>
          have hs2 : inner.shape = inner'.shape := by simpa [Chain.shape] using hs
          have hEq := ih inner' h h' hs2
          have hN := Chain.reload_error_none env inner' h'
          rcases hR : Chain.Reload env inner' with ⟨i2, ierr, itr⟩
          rw [hR] at hN hEq
          cases ierr with
          | some e => simp at hN
          | none => simp [Chain.Reload, hEq, hR]
      | StrictDatabaseConfig inner' dbA' dbP' => simp [Chain.defaultMode] at h'
      | MessageOfTheDay inner' m' => simp [Chain.shape] at hs
  | StrictDatabaseConfig inner dbA dbP ih =>
      intro c' h h' hs
      simp [Chain.defaultMode] at h
  | MessageOfTheDay inner m ih =>
      intro c' h h' hs
      cases c' with
      | Config a' p' => simp [Chain.shape] at hs
      | StrictConfig a' p' => simp [Chain.defaultMode] at h'
      | DatabaseConfig inner' dbA' dbP' => simp [Chain.shape] at hs
      | StrictDatabaseConfig inner' dbA' dbP' => simp [Chain.defaultMode] at h'
      | MessageOfTheDay inner' m' =>
          have hs2 : inner.shape = inner'.shape := by simpa [Chain.shape] using hs
          have hEq := ih inner' h h' hs2
          have hN := Chain.reload_error_none env inner' h'
          rcases hR : Chain.Reload env inner' with ⟨i2, ierr, itr⟩
          rw [hR] at hN hEq
          cases ierr with
          | some e => simp at hN
          | none => simp [Chain.Reload, hEq, hR]

/-- Witness for C9: two three-layer chains with different construction-time
fields reload to the same result under a fully set environment. -/
theorem reload_env_determined_witness :
    Chain.Reload envFull
        (.MessageOfTheDay (.DatabaseConfig (.Config "a" "b") "c" "d") "e") =
      Chain.Reload envFull
        (.MessageOfTheDay (.DatabaseConfig (.Config "v" "w") "x" "y") "z") :=
  reload_env_determined envFull
    (.MessageOfTheDay (.DatabaseConfig (.Config "a" "b") "c" "d") "e")
    (.MessageOfTheDay (.DatabaseConfig (.Config "v" "w") "x" "y") "z")
    (by decide) (by decide) (by decide)

/-- C3: strict mode fails with `MissingRequiredValue` naming the missing
variable (first-checked-first-reported: `ADDRESS` before `PORT`,
`DB_ADDRESS` before `DB_PORT`), the failing layer's own fields keep their
pre-call values, and an inner layer that already completed keeps its new
state. -/
theorem strict_missing_required (env : Env) (a p dbA dbP : String)
    (inner : Chain) :
    ((env "ADDRESS" = none ∨ env "ADDRESS" = some "") →
      Chain.Reload env (.StrictConfig a p) =
        (.StrictConfig a p, some (.MissingRequiredValue "ADDRESS"),
         [.reloading "base config"])) ∧
    (∀ v, v ≠ "" → env "ADDRESS" = some v →
      (env "PORT" = none ∨ env "PORT" = some "") →
      Chain.Reload env (.StrictConfig a p) =
        (.StrictConfig a p, some (.MissingRequiredValue "PORT"),
         [.reloading "base config"])) ∧
    (∀ inner' itr, Chain.Reload env inner = (inner', none, itr) →
      (env "DB_ADDRESS" = none ∨ env "DB_ADDRESS" = some "") →
      Chain.Reload env (.StrictDatabaseConfig inner dbA dbP) =
        (.StrictDatabaseConfig inner' dbA dbP,
         some (.MissingRequiredValue "DB_ADDRESS"),
         .reloading "database config" :: itr)) ∧
    (∀ inner' itr v, Chain.Reload env inner = (inner', none, itr) →
      v ≠ "" → env "DB_ADDRESS" = some v →
      (env "DB_PORT" = none ∨ env "DB_PORT" = some "") →
      Chain.Reload env (.StrictDatabaseConfig inner dbA dbP) =
        (.StrictDatabaseConfig inner' dbA dbP,
         some (.MissingRequiredValue "DB_PORT"),
         .reloading "database config" :: itr)) := by
  refine ⟨?_, ?_, ?_, ?_⟩
  · intro h
    simp [Chain.Reload, strictReadField_missing env "ADDRESS" h]
  · intro v hv he hp
    simp [Chain.Reload, strictReadField_set env "ADDRESS" v hv he,
          strictReadField_missing env "PORT" hp]
  · intro inner' itr hI hd
    simp [Chain.Reload, hI, strictReadField_missing env "DB_ADDRESS" hd]
  · intro inner' itr v hI hv he hp
    simp [Chain.Reload, hI, strictReadField_set env "DB_ADDRESS" v hv he,
          strictReadField_missing env "DB_PORT" hp]

/-- Witness for C3, the spec's scenario: `ADDRESS` set to `"http://svc"`,
`PORT` unset; the strict base fails naming `PORT` and its `Address` keeps its
construction-time value `"http://webapp"`. -/
theorem strict_missing_required_witness :
    Chain.Reload envSvc (.StrictConfig "http://webapp" "8080") =
      (.StrictConfig "http://webapp" "8080",
       some (.MissingRequiredValue "PORT"), [.reloading "base config"]) :=
  (strict_missing_required envSvc "http://webapp" "8080" "x" "y"
      (.Config "" "")).2.1 "http://svc" (by decide) (by decide) (by decide)

theorem Static.getHost_fst_baseOf :
    ∀ c : Static.Configurer, (c.GetHost).1 = (c.baseOf.GetHost).1 := by
  intro c
  induction c with
  | Config a p => rfl
  | DatabaseConfig c dbA dbP ih =>
      rcases hh : c.GetHost with ⟨v, c'⟩
      rw [hh] at ih
      simpa [Static.Configurer.GetHost, hh, Static.Configurer.baseOf] using ih

theorem Static.getPort_fst_baseOf :
    ∀ c : Static.Configurer, (c.GetPort).1 = (c.baseOf.GetPort).1 := by
  intro c
  induction c with
  | Config a p => rfl
  | DatabaseConfig c dbA dbP ih =>
      rcases hh : c.GetPort with ⟨v, c'⟩
      rw [hh] at ih
      simpa [Static.Configurer.GetPort, hh, Static.Configurer.baseOf] using ih

/-- C7: delegation correctness in the static build: `GetHost`/`GetPort` on a
`DatabaseConfig` return exactly what its delegate returns, reading through any
tower reaches the base layer's values, and on a `DatabaseConfig` wrapping a
base `Config` they return exactly the base's address and port. -/
theorem accessor_delegation (c : Static.Configurer) (a : String) (p : Int)
    (dbA : String) (dbP : Int) :
    ((Static.Configurer.DatabaseConfig c dbA dbP).GetHost).1 = (c.GetHost).1 ∧
    ((Static.Configurer.DatabaseConfig c dbA dbP).GetPort).1 = (c.GetPort).1 ∧
    (c.GetHost).1 = (c.baseOf.GetHost).1 ∧
    (c.GetPort).1 = (c.baseOf.GetPort).1 ∧
    ((Static.Configurer.DatabaseConfig (.Config a p) dbA dbP).GetHost).1 = a ∧
    ((Static.Configurer.DatabaseConfig (.Config a p) dbA dbP).GetPort).1 = p := by
  refine ⟨?_, ?_, Static.getHost_fst_baseOf c, Static.getPort_fst_baseOf c,
          rfl, rfl⟩
  · rcases hh : c.GetHost with ⟨v, c'⟩
    simp [Static.Configurer.GetHost, hh]
  · rcases hh : c.GetPort with ⟨v, c'⟩
    simp [Static.Configurer.GetPort, hh]

/-- C10: every accessor of the static build is a pure observer: its post-call
receiver state equals the pre-call state for every tower. -/
theorem accessor_frame :
    ∀ c : Static.Configurer,
      (c.GetHost).2 = c ∧ (c.GetPort).2 = c ∧
      (c.GetDBAddress).2 = c ∧ (c.GetDBPort).2 = c := by
  intro c
  induction c with
  | Config a p => exact ⟨rfl, rfl, rfl, rfl⟩
  | DatabaseConfig c dbA dbP ih =>
      obtain ⟨h1, h2, h3, h4⟩ := ih
      refine ⟨?_, ?_, rfl, rfl⟩
      · rcases hh : c.GetHost with ⟨v, c'⟩
        rw [hh] at h1
        simp only at h1
        simp [Static.Configurer.GetHost, hh, h1]
      · rcases hh : c.GetPort with ⟨v, c'⟩
        rw [hh] at h2
        simp only at h2
        simp [Static.Configurer.GetPort, hh, h2]

/-- Witness for C1 at the spec scenario environment. -/
theorem reload_default_filling_fields_witness :
    specFieldPolicy envSvc "ADDRESS" "http://localhost"
      ((Chain.Reload envSvc
        (.MessageOfTheDay (.DatabaseConfig (.Config "http://webapp" "8080")
          "http://mongodb" "27017") "Hello, World!")).1).addressOf ∧
    specFieldPolicy envSvc "PORT" "8081"
      ((Chain.Reload envSvc
        (.MessageOfTheDay (.DatabaseConfig (.Config "http://webapp" "8080")
          "http://mongodb" "27017") "Hello, World!")).1).portOf ∧
    specFieldPolicy envSvc "DB_ADDRESS" "http://localhost"
      ((Chain.Reload envSvc
        (.MessageOfTheDay (.DatabaseConfig (.Config "http://webapp" "8080")
          "http://mongodb" "27017") "Hello, World!")).1).dbAddressOf ∧
    specFieldPolicy envSvc "DB_PORT" "37017"
      ((Chain.Reload envSvc
        (.MessageOfTheDay (.DatabaseConfig (.Config "http://webapp" "8080")
          "http://mongodb" "27017") "Hello, World!")).1).dbPortOf ∧
    specFieldPolicy envSvc "MOTD" "Have a Nice Day!"
      ((Chain.Reload envSvc
        (.MessageOfTheDay (.DatabaseConfig (.Config "http://webapp" "8080")
          "http://mongodb" "27017") "Hello, World!")).1).motdOf :=
  reload_default_filling_fields envSvc "http://webapp" "8080"
    "http://mongodb" "27017" "Hello, World!"
